import Mathlib

/-!
Shallow embedding of the HouseDCC service (housedcc_pidcc.c and
housedcc_fleet.c) used to check the natural-language specification
against the code.

Conventions of the embedding:
* C `int` values are modelled as `Int`; C `short` stores are modelled by
  explicit truncation into the range [-32768, 32767].
* The module-level static variables of housedcc_pidcc.c that the claims
  depend on (`GpioPinA`, `GpioPinB`, `PiDccState`, `PiDccStateDeadline`)
  become the fields of `PState`.  The capture log (housecapture_record
  calls made by housedcc_pidcc_write) and the bytes actually written to
  the worker pipe become explicit `capture` and `channel` lists.
* A command line "send A B" built by snprintf is modelled as the pair
  `(A, B)` of its two decimal fields; the "pin" configuration line and
  the free-text capture records of status lines are not needed by any
  claim and are not modelled.
* The OS-level `write()` call can fail; its success is an input
  `writeOk : Bool` of each operation that transmits.
* `time(0)` inside housedcc_pidcc_decode is passed in as the explicit
  parameter `now`, consistent with `housedcc_pidcc_periodic (time_t now)`.
* The process-supervision half of housedcc_pidcc_periodic (waitpid and
  relaunch) manipulates OS processes only; no claim mentions it and it
  is not modelled.
-/

namespace HouseDcc

/-- State of the PiDCC transport module: the static variables of
housedcc_pidcc.c, plus the observable history (capture records written
by housedcc_pidcc_write, and the command lines actually written to the
worker channel). -/
structure PState where
  gpioPinA : Int
  gpioPinB : Int
  piState : Char
  deadline : Int
  capture : List (String × Int × Int)
  channel : List (Int × Int)
deriving DecidableEq, Repr

/-- C `housedcc_pidcc_enabled`: a transmission pin is configured. -/
def housedcc_pidcc_enabled (s : PState) : Bool :=
  decide (0 < s.gpioPinA) || decide (0 < s.gpioPinB)

/-- C `housedcc_pidcc_write`: records the command ("WRITE" when a pin is
configured, "BUILT" otherwise), returns 0 without transmitting when no
pin is configured, then writes to the worker pipe, returning 0 when the
OS write fails and 1 on success. -/
def housedcc_pidcc_write (writeOk : Bool) (s : PState) (cmd : Int × Int) :
    Int × PState :=
  if housedcc_pidcc_enabled s then
    if writeOk then
      (1, { s with capture := s.capture ++ [(("WRITE"), cmd)],
                   channel := s.channel ++ [cmd] })
    else
      (0, { s with capture := s.capture ++ [(("WRITE"), cmd)] })
  else
    (0, { s with capture := s.capture ++ [(("BUILT"), cmd)] })

/-- C static table `speed2cssss` of housedcc_pidcc_move: DCC 28-step
speed value to 5-bit C-SSSS wire code. -/
def speed2cssss : List Int :=
  [0, 0x2, 0x12, 0x3, 0x13,
   0x4, 0x14, 0x5, 0x15, 0x6,
   0x16, 0x7, 0x17, 0x8, 0x18,
   0x9, 0x19, 0xa, 0x1a, 0xb,
   0x1b, 0xc, 0x1c, 0xd, 0x1d,
   0xe, 0x1e, 0xf, 0x1f]

/-- C `housedcc_pidcc_move`: rejects addresses outside 1..127, refuses
to send while the worker reported a full queue, rejects speed magnitudes
above 28, and otherwise sends "send (address & 0x7f)
(0x40 + dir + (speed2cssss[abs speed] & 0x1f))" where dir is 0x20 for a
strictly positive speed. -/
def housedcc_pidcc_move (writeOk : Bool) (s : PState)
    (address speed : Int) : Int × PState :=
  if address ≤ 0 ∨ 128 ≤ address then (0, s)
  else if s.piState = ('*') then (0, s)
  else
    let dir : Int := if 0 < speed then 0x20 else 0
    let sp : Nat := speed.natAbs
    if 28 < sp then (0, s)
    else housedcc_pidcc_write writeOk s
      (Int.land address 0x7f,
       0x40 + dir + Int.land (speed2cssss.getD sp 0) 0x1f)

/-- C `housedcc_pidcc_stop`: rejects addresses outside 0..127 (address 0
is "all locomotives"), performs no readiness-state check, and sends
"send (address & 0x7f) (0x40 + 1)" for an emergency stop or
"send (address & 0x7f) 0x40" otherwise. -/
def housedcc_pidcc_stop (writeOk : Bool) (s : PState)
    (address emergency : Int) : Int × PState :=
  if address < 0 ∨ 128 ≤ address then (0, s)
  else housedcc_pidcc_write writeOk s
    (Int.land address 0x7f, 0x40 + (if emergency ≠ 0 then 1 else 0))

/-- C `housedcc_pidcc_function`: rejects addresses at or above 128,
refuses to send while the worker reported a full queue, and otherwise
sends "send (address & 0x7f) instruction". -/
def housedcc_pidcc_function (writeOk : Bool) (s : PState)
    (address instruction : Int) : Int × PState :=
  if 128 ≤ address then (0, s)
  else if s.piState = ('*') then (0, s)
  else housedcc_pidcc_write writeOk s (Int.land address 0x7f, instruction)

/-- C `housedcc_pidcc_accessory`: rejects addresses at or above 512 and
refuses to send while the worker reported a full queue; otherwise sends
"send (0x80 + (address & 0x3f))
(0x80 + (0 ^ ((address & 0x1c0) >> 2)) + value + device)" where value is
0x08 when nonzero and device is masked to its low 4 bits.  The
`Int.xor 0 _` mirrors the literal `0 ^ ...` of the source. -/
def housedcc_pidcc_accessory (writeOk : Bool) (s : PState)
    (address device value : Int) : Int × PState :=
  if 512 ≤ address then (0, s)
  else if s.piState = ('*') then (0, s)
  else
    let v : Int := if value ≠ 0 then 0x08 else 0
    let d : Int := Int.land device 0x0f
    housedcc_pidcc_write writeOk s
      (0x80 + Int.land address 0x3f,
       0x80 + Int.xor 0 (Int.shiftRight (Int.land address 0x1c0) 2) + v + d)

/-- C `housedcc_pidcc_decode`: a received line starting with '#' marks
the worker idle; '%' (busy) and '*' (queue full) record the state and
arm the 3-second staleness deadline; empty lines and '!'/'$' (error and
debug reports, only logged) leave the state unchanged. -/
def housedcc_pidcc_decode (now : Int) (s : PState) (line : String) :
    PState :=
  match line.data.head? with
  | some c =>
      if c = ('#') then { s with piState := ('#') }
      else if c = ('%') then { s with piState := ('%'), deadline := now + 3 }
      else if c = ('*') then { s with piState := ('*'), deadline := now + 3 }
      else s
  | none => s

/-- C `housedcc_pidcc_periodic`, state part: while the last reported
state is a full queue and the staleness deadline is strictly in the
past, revert to idle.  (The process-liveness half of the C function is
OS process management and is not modelled.) -/
def housedcc_pidcc_periodic (now : Int) (s : PState) : PState :=
  if s.piState = ('*') then
    if s.deadline < now then { s with piState := ('#') } else s
  else s

/-!
Embedding of housedcc_fleet.c.  The `Models` and `Vehicles` arrays
(dynamic arrays indexed 0..Count-1, with deleted entries tombstoned by
clearing the first character of their name) become lists whose length is
the Count; a tombstoned entry is one whose name/id is the empty string.
The C vehicle's `DccModel *model` pointer into the Models array becomes
an optional index into the models list.  C `char name[15]` stores
truncate to 14 characters, modelled by `truncate14`.
-/

/-- C struct `DccFunction` of housedcc_fleet.c: a named function of a
model and its DCC function index (a C `char`; -1 means unassigned). -/
structure DccFunction where
  name : String
  index : Int
deriving DecidableEq, Repr, Inhabited

/-- C struct `DccModel` of housedcc_fleet.c.  The C fixed array of
FUNCTION_MAX entries together with its `count` is modelled as a list of
length `count` (housedcc_fleet_declare caps count at 16). -/
structure DccModel where
  name : String
  type : Int
  functions : List DccFunction
deriving DecidableEq, Repr

/-- C struct `DccVehicle` of housedcc_fleet.c.  `model` is the optional
index into the models list standing for the C model pointer. -/
structure DccVehicle where
  id : String
  address : Int
  speed : Int
  functions : Int
  model : Option Nat
deriving DecidableEq, Repr, Inhabited

/-- State of the fleet module: the `Models` and `Vehicles` arrays of
housedcc_fleet.c, each up to its Count. -/
structure FleetState where
  models : List DccModel
  vehicles : List DccVehicle
deriving DecidableEq, Repr

/-- First index at which the predicate holds: the embedding of the C
linear scans `for (i = 0; i < Count; ++i) if (match) return i;
return -1`, with `none` standing for -1. -/
def findFirst (p : α → Bool) : List α → Option Nat
  | [] => none
  | x :: xs => if p x then some 0 else (findFirst p xs).map (· + 1)

/-- C `housedcc_fleet_find`: index of the first vehicle entry whose id
matches exactly (tombstoned entries have id "" and are compared too). -/
def housedcc_fleet_find (fs : FleetState) (id : String) : Option Nat :=
  findFirst (fun v => v.id = id) fs.vehicles

/-- C `housedcc_fleet_find_address`: index of the first vehicle entry
(tombstoned or not) holding the given address. -/
def housedcc_fleet_find_address (fs : FleetState) (address : Int) :
    Option Nat :=
  findFirst (fun v => v.address = address) fs.vehicles

/-- C `housedcc_fleet_find_model`: index of the first model entry with
the given name; a null or empty name is never found. -/
def housedcc_fleet_find_model (fs : FleetState) (model : String) :
    Option Nat :=
  if model = ("") then none
  else findFirst (fun m => m.name = model) fs.models

/-- Truncation of a vehicle or model identifier into a C `char[15]`
store by snprintf: at most 14 characters are kept (identifiers are
ASCII, one byte per character). -/
def truncate14 (s : String) : String := ⟨s.data.take 14⟩

/-- C `housedcc_fleet_valid_address`: a DCC mobile address, 1..127. -/
def housedcc_fleet_valid_address (address : Int) : Prop :=
  0 < address ∧ address < 128

instance (address : Int) : Decidable (housedcc_fleet_valid_address address) :=
  inferInstanceAs (Decidable (_ ∧ _))

/-- C `housedcc_fleet_add`: rejects an invalid address; resolves the
optional model name; rejects (no-op) when the first entry holding the
requested address (the C `synonym`) is not the entry found by id (the C
`cursor`); otherwise updates the entry found by id, or creates a new
entry in the first tombstoned slot (else appended), and in both cases
stores the address, resets speed and functions to 0 and stores the
model reference. -/
def housedcc_fleet_add (fs : FleetState) (id : String)
    (model : Option String) (address : Int) : FleetState :=
  if ¬ housedcc_fleet_valid_address address then fs
  else if (housedcc_fleet_find_address fs address).isSome ∧
          housedcc_fleet_find fs id ≠ housedcc_fleet_find_address fs address
  then fs
  else
    match housedcc_fleet_find fs id with
    | some c =>
        let v := fs.vehicles.getD c default
        let v' := { v with address := address, speed := 0, functions := 0,
                           model := model.bind (housedcc_fleet_find_model fs) }
        { fs with vehicles := fs.vehicles.set c v' }
    | none =>
        let entry : DccVehicle :=
          ⟨truncate14 id, address, 0, 0,
           model.bind (housedcc_fleet_find_model fs)⟩
        match findFirst (fun v => v.id = ("")) fs.vehicles with
        | some slot => { fs with vehicles := fs.vehicles.set slot entry }
        | none => { fs with vehicles := fs.vehicles ++ [entry] }

/-- C `housedcc_fleet_delete`: tombstones the vehicle with that id by
clearing its id; otherwise tombstones the model with that name. -/
def housedcc_fleet_delete (fs : FleetState) (id : String) : FleetState :=
  match housedcc_fleet_find fs id with
  | some c =>
      let v := fs.vehicles.getD c default
      { fs with vehicles := fs.vehicles.set c ({ v with id := ("") }) }
  | none =>
      match housedcc_fleet_find_model fs id with
      | some c =>
          let m := fs.models.getD c ⟨("" ), 0, []⟩
          { fs with models := fs.models.set c ({ m with name := ("") }) }
      | none => fs

/-- C speed clamp of `housedcc_fleet_move`: the requested speed limited
to [-31, 31]. -/
def housedcc_fleet_clamp (speed : Int) : Int :=
  if speed < -31 then -31 else if speed > 31 then 31 else speed

/-- C `housedcc_fleet_move`: fails when the id is unknown; otherwise
clamps the speed to [-31, 31], stores the clamped speed in the vehicle
entry, and returns the result of the transport-level move command. -/
def housedcc_fleet_move (writeOk : Bool) (fs : FleetState) (ps : PState)
    (id : String) (speed : Int) : Int × FleetState × PState :=
  match housedcc_fleet_find fs id with
  | none => (0, fs, ps)
  | some c =>
      let sp := housedcc_fleet_clamp speed
      let v := fs.vehicles.getD c default
      let fs' := { fs with vehicles := fs.vehicles.set c ({ v with speed := sp }) }
      let r := housedcc_pidcc_move writeOk ps v.address sp
      (r.1, fs', r.2)

/-- C `housedcc_fleet_stop`: fails when the id is unknown; otherwise
stores speed 0 in the vehicle entry and returns the result of the
transport-level stop command (which performs no readiness check). -/
def housedcc_fleet_stop (writeOk : Bool) (fs : FleetState) (ps : PState)
    (id : String) (emergency : Int) : Int × FleetState × PState :=
  match housedcc_fleet_find fs id with
  | none => (0, fs, ps)
  | some c =>
      let v := fs.vehicles.getD c default
      let fs' := { fs with vehicles := fs.vehicles.set c ({ v with speed := 0 }) }
      let r := housedcc_pidcc_stop writeOk ps v.address emergency
      (r.1, fs', r.2)

/-- C `housedcc_fleet_stopped`: records speed 0 for every live
vehicle. -/
def housedcc_fleet_stopped (fs : FleetState) : FleetState :=
  let halt := fun (v : DccVehicle) =>
    if v.id ≠ ("") then { v with speed := 0 } else v
  { fs with vehicles := fs.vehicles.map halt }

/-- Truncation of a C `int` value into a C `short` store (two's
complement wrap-around into [-32768, 32767]). -/
def toShort (n : Int) : Int := (n + 32768) % 65536 - 32768

/-- C expression `short mask = 1 << (index - 1)` of housedcc_fleet_set.
In C the shift is undefined behavior for `index ≤ 0` (negative shift
count) and for `index ≥ 32` (shift reaching or exceeding the width of
int, or overflowing its sign bit for index 32); the embedding returns 0
in those cases, and no theorem below depends on the value chosen for
them. -/
def maskOf (index : Int) : Int :=
  if 1 ≤ index ∧ index ≤ 31 then toShort (2 ^ (index - 1).toNat) else 0

/-- C `housedcc_fleet_set`: fails when the id is unknown, the vehicle
has no model, or the model has no function with the given name.
Otherwise computes the single-bit mask of the function's index, updates
the vehicle's stored function bitmask (set or clear), then derives the
grouped instruction byte: base 0x80 with F1-F4 in the low 4 bits and FL
(bit 0x1000 of the mask) as 0x10 when the index is at most 4 or exactly
13; base 0xb0 with F5-F8 when the index is 5..8; base 0xa0 with F9-F12
when the index is 9..12; any other index fails after the mask update.
On success, returns the result of the transport-level function
command. -/
def housedcc_fleet_set (writeOk : Bool) (fs : FleetState) (ps : PState)
    (id name : String) (state : Int) : Int × FleetState × PState :=
  match housedcc_fleet_find fs id with
  | none => (0, fs, ps)
  | some c =>
      let v := fs.vehicles.getD c default
      match v.model.bind (fs.models.get? ·) with
      | none => (0, fs, ps)
      | some model =>
          match findFirst (fun f => f.name = name) model.functions with
          | none => (0, fs, ps)
          | some i =>
              let index := (model.functions.getD i default).index
              let mask := maskOf index
              let fns :=
                if state ≠ 0 then toShort (Int.lor v.functions mask)
                else toShort (Int.land v.functions (Int.not mask))
              let fs' := { fs with vehicles :=
                             fs.vehicles.set c ({ v with functions := fns }) }
              if index ≤ 4 ∨ index = 13 then
                let instr := 0x80 + Int.land fns 0xf +
                  (if Int.land fns 0x1000 ≠ 0 then 0x10 else 0)
                let r := housedcc_pidcc_function writeOk ps v.address instr
                (r.1, fs', r.2)
              else if index ≤ 8 then
                let instr := 0xb0 + Int.land (Int.shiftRight fns 4) 0xf
                let r := housedcc_pidcc_function writeOk ps v.address instr
                (r.1, fs', r.2)
              else if index ≤ 12 then
                let instr := 0xa0 + Int.land (Int.shiftRight fns 8) 0xf
                let r := housedcc_pidcc_function writeOk ps v.address instr
                (r.1, fs', r.2)
              else (0, fs', ps)

/-- Decoder of the claims: inverse lookup of a 5-bit C-SSSS code in the
speed table, recovering the speed step it encodes. -/
def decodeSpeed (code : Int) : Option Nat :=
  findFirst (fun v => v = code) speed2cssss

/-- Concrete transport state: pin configured, worker idle. -/
def psIdle : PState := ⟨5, 0, ('#'), 0, [], []⟩

/-- Concrete transport state: pin configured, worker reported a full
queue at deadline 100. -/
def psFull : PState := ⟨5, 0, ('*'), 100, [], []⟩

/-- Concrete transport state: no pin configured (dry-run mode). -/
def psDry : PState := ⟨0, 0, ('#'), 0, [], []⟩

/-- Concrete fleet state: empty. -/
def fs0 : FleetState := ⟨[], []⟩

/-- Concrete fleet state: one vehicle "V" at address 3, currently moving
at speed 5 with function bitmask 3. -/
def fsV : FleetState := ⟨[], [⟨("V"), 3, 5, 3, none⟩]⟩

/-- Concrete fleet state: vehicle "V" at address 3 whose model has one
function "aux" with the unassigned index -1 (the default index that
housedcc_fleet_declare stores when a function name carries no ":index"
suffix). -/
def fsM : FleetState :=
  ⟨[⟨("M"), 2, [⟨("aux"), -1⟩]⟩], [⟨("V"), 3, 0, 0, some 0⟩]⟩

/-- Concrete fleet state: vehicle "V" at address 3, stored speed 5 and
empty function bitmask, whose model "M2" has one function "f1" with
index 1. -/
def fsF : FleetState :=
  ⟨[⟨("M2"), 2, [⟨("f1"), 1⟩]⟩], [⟨("V"), 3, 5, 0, some 0⟩]⟩

/-- Concrete fleet state: vehicle "X" at address 5 was added and then
deleted, leaving a tombstoned entry that still carries address 5. -/
def fsTomb : FleetState :=
  housedcc_fleet_delete (housedcc_fleet_add fs0 ("X") none 5) ("X")

/-! Helper lemmas about the linear scans and array updates. -/

theorem findFirst_lt_length {α : Type} {p : α → Bool} :
    ∀ {l : List α} {i : Nat}, findFirst p l = some i → i < l.length := by
  intro l
  induction l with
  | nil => intro i h; simp [findFirst] at h
  | cons x xs ih =>
      intro i h
      simp only [findFirst] at h
      by_cases hp : p x
      · rw [if_pos hp] at h
        injection h with h
        subst h
        simp
      · rw [if_neg hp] at h
        cases hfx : findFirst p xs with
        | none => rw [hfx] at h; simp at h
        | some j =>
            rw [hfx] at h
            simp only [Option.map_some'] at h
            injection h with h
            subst h
            have := ih hfx
            simp
            omega

theorem findFirst_getD {α : Type} (p : α → Bool) (d : α) :
    ∀ {l : List α} {i : Nat}, findFirst p l = some i →
      p (l.getD i d) = true := by
  intro l
  induction l with
  | nil => intro i h; simp [findFirst] at h
  | cons x xs ih =>
      intro i h
      simp only [findFirst] at h
      by_cases hp : p x
      · rw [if_pos hp] at h
        injection h with h
        subst h
        simpa using hp
      · rw [if_neg hp] at h
        cases hfx : findFirst p xs with
        | none => rw [hfx] at h; simp at h
        | some j =>
            rw [hfx] at h
            simp only [Option.map_some'] at h
            injection h with h
            subst h
            simpa using ih hfx

theorem getD_set_self {α : Type} {l : List α} {i : Nat} (v d : α)
    (h : i < l.length) : (l.set i v).getD i d = v := by
  rw [List.getD_eq_get?, List.get?_set_eq_of_lt v h]
  rfl

theorem int_land_127 : ∀ x : Int, 0 ≤ x → x < 128 → Int.land x 127 = x := by
  have hb : ∀ m : Nat, m < 128 →
      Int.land (Int.ofNat m) (Int.ofNat 127) = Int.ofNat m := by decide
  intro x h0 h1
  obtain ⟨m, rfl⟩ : ∃ m : Nat, x = Int.ofNat m :=
    ⟨x.toNat, (Int.toNat_of_nonneg h0).symm⟩
  exact hb m (Int.ofNat_lt.mp h1)

/-- C1: for every address in 1..127 and every step s with |s| ≤ 28 (and
the transport not reporting a full queue), housedcc_pidcc_move emits the
instruction byte 0x40 OR'd with the direction bit 0x20 exactly when
s > 0, OR'd with the low 5 bits of the 29-entry lookup table's value at
|s|; the table is injective on 0..28 and decoding the emitted 5-bit
field through the inverse table recovers |s|; for 29 ≤ |s| ≤ 31 the
encoder returns failure 0 although the fleet layer's clamp accepted the
value unchanged. -/
theorem housedcc_pidcc_move_encoding (wk : Bool) (ps : PState)
    (address speed : Int)
    (ha : 0 < address ∧ address < 128) (hq : ps.piState ≠ ('*')) :
    (speed.natAbs ≤ 28 →
      housedcc_pidcc_move wk ps address speed =
        housedcc_pidcc_write wk ps
          (address,
           Int.lor 0x40 (Int.lor (if 0 < speed then 0x20 else 0)
             (Int.land (speed2cssss.getD speed.natAbs 0) 0x1f))))
    ∧ (∀ i ≤ 28, ∀ j ≤ 28,
        speed2cssss.getD i 0 = speed2cssss.getD j 0 → i = j)
    ∧ (speed.natAbs ≤ 28 →
        decodeSpeed (Int.land (speed2cssss.getD speed.natAbs 0) 0x1f) =
          some speed.natAbs)
    ∧ (29 ≤ speed.natAbs → speed.natAbs ≤ 31 →
        housedcc_pidcc_move wk ps address speed = (0, ps) ∧
        housedcc_fleet_clamp speed = speed) := by
  have hna : ¬ (address ≤ 0 ∨ 128 ≤ address) := by omega
  refine ⟨?_, by decide, ?_, ?_⟩
  · intro h28
    have hlt : ¬ 28 < speed.natAbs := by omega
    simp only [housedcc_pidcc_move, if_neg hna, if_neg hq, if_neg hlt]
    have he1 : Int.land address 127 = address :=
      int_land_127 address (by omega) ha.2
    have he2 : ∀ n, n ≤ 28 →
        (64 + 32 + Int.land (speed2cssss.getD n 0) 31 =
          Int.lor 64 (Int.lor 32 (Int.land (speed2cssss.getD n 0) 31))) ∧
        (64 + 0 + Int.land (speed2cssss.getD n 0) 31 =
          Int.lor 64 (Int.lor 0 (Int.land (speed2cssss.getD n 0) 31))) := by
      decide
    by_cases hd : 0 < speed
    · rw [if_pos hd, he1, (he2 speed.natAbs h28).1]
    · rw [if_neg hd, he1, (he2 speed.natAbs h28).2]
  · intro h28
    have hdec : ∀ n, n ≤ 28 →
        decodeSpeed (Int.land (speed2cssss.getD n 0) 31) = some n := by
      decide
    exact hdec speed.natAbs h28
  · intro h29 h31
    have hlt : 28 < speed.natAbs := by omega
    constructor
    · simp only [housedcc_pidcc_move, if_neg hna, if_neg hq, if_pos hlt]
    · have hr : ¬ speed < -31 := by omega
      have hf : ¬ speed > 31 := by omega
      simp only [housedcc_fleet_clamp, if_neg hr, if_neg hf]

/-- Witness for C1 at address 3, step 7 (forward). -/
theorem housedcc_pidcc_move_encoding_witness :
    housedcc_pidcc_move true psIdle 3 7 =
      housedcc_pidcc_write true psIdle
        (3, Int.lor 0x40 (Int.lor (if 0 < (7 : Int) then 0x20 else 0)
          (Int.land (speed2cssss.getD (7 : Int).natAbs 0) 0x1f))) :=
  (housedcc_pidcc_move_encoding true psIdle 3 7 (by decide)
    (by decide)).1 (by decide)

/-- C2: for every address in 0..127 (0 meaning all units) and every
transport state, including a reported full queue, housedcc_pidcc_stop
performs no readiness check and hands the transport the stop command
encoded as 0x40 + 1 for an emergency stop and 0x40 + 0 otherwise. -/
theorem housedcc_pidcc_stop_ungated (wk : Bool) (ps : PState)
    (address emergency : Int) (ha : 0 ≤ address ∧ address < 128) :
    housedcc_pidcc_stop wk ps address emergency =
      housedcc_pidcc_write wk ps
        (address, 0x40 + (if emergency ≠ 0 then 1 else 0)) := by
  have hna : ¬ (address < 0 ∨ 128 ≤ address) := by omega
  simp only [housedcc_pidcc_stop, if_neg hna,
             int_land_127 address ha.1 ha.2]

/-- Witness for C2: emergency stop of all units (address 0) while the
worker reports a full queue. -/
theorem housedcc_pidcc_stop_ungated_witness :
    housedcc_pidcc_stop true psFull 0 1 =
      housedcc_pidcc_write true psFull
        (0, 0x40 + (if (1 : Int) ≠ 0 then 1 else 0)) :=
  housedcc_pidcc_stop_ungated true psFull 0 1 (by decide)

/-- C3: whenever the worker reported a full queue, each of
housedcc_pidcc_move, housedcc_pidcc_function and
housedcc_pidcc_accessory returns failure 0 with the transport state
untouched (in particular nothing is appended to the worker channel),
for every input. -/
theorem housedcc_pidcc_queue_full_gating (wk : Bool) (ps : PState)
    (h : ps.piState = ('*')) :
    (∀ address speed,
        housedcc_pidcc_move wk ps address speed = (0, ps))
    ∧ (∀ address instruction,
        housedcc_pidcc_function wk ps address instruction = (0, ps))
    ∧ (∀ address device value,
        housedcc_pidcc_accessory wk ps address device value = (0, ps)) := by
  refine ⟨fun address speed => ?_, fun address instruction => ?_,
          fun address device value => ?_⟩
  · by_cases hg : address ≤ 0 ∨ 128 ≤ address
    · simp only [housedcc_pidcc_move, if_pos hg]
    · simp only [housedcc_pidcc_move, if_neg hg, if_pos h]
  · by_cases hg : 128 ≤ address
    · simp only [housedcc_pidcc_function, if_pos hg]
    · simp only [housedcc_pidcc_function, if_neg hg, if_pos h]
  · by_cases hg : 512 ≤ address
    · simp only [housedcc_pidcc_accessory, if_pos hg]
    · simp only [housedcc_pidcc_accessory, if_neg hg, if_pos h]

/-- Witness for C3: with the concrete full-queue state, a move, a
function command and an accessory command all fail without effect. -/
theorem housedcc_pidcc_queue_full_gating_witness :
    housedcc_pidcc_move true psFull 3 7 = (0, psFull) ∧
    housedcc_pidcc_function true psFull 3 129 = (0, psFull) ∧
    housedcc_pidcc_accessory true psFull 9 2 1 = (0, psFull) :=
  ⟨(housedcc_pidcc_queue_full_gating true psFull (by decide)).1 3 7,
   (housedcc_pidcc_queue_full_gating true psFull (by decide)).2.1 3 129,
   (housedcc_pidcc_queue_full_gating true psFull (by decide)).2.2 9 2 1⟩

/-- C10: when no transmission pin is configured (both GPIO pins at most
0), every write records the built command line with the "BUILT" tag and
returns 0 — the same value a transmission error returns — and therefore
every move, stop, function and accessory call returns 0, the stop
included. -/
theorem housedcc_pidcc_dry_run (wk : Bool) (ps : PState)
    (h1 : ps.gpioPinA ≤ 0) (h2 : ps.gpioPinB ≤ 0) :
    (∀ cmd, housedcc_pidcc_write wk ps cmd =
      (0, { ps with capture := ps.capture ++ [(("BUILT"), cmd)] }))
    ∧ (∀ address speed, (housedcc_pidcc_move wk ps address speed).1 = 0)
    ∧ (∀ address emergency,
        (housedcc_pidcc_stop wk ps address emergency).1 = 0)
    ∧ (∀ address instruction,
        (housedcc_pidcc_function wk ps address instruction).1 = 0)
    ∧ (∀ address device value,
        (housedcc_pidcc_accessory wk ps address device value).1 = 0) := by
  have hen : housedcc_pidcc_enabled ps = false := by
    simp only [housedcc_pidcc_enabled, Bool.or_eq_false_iff,
               decide_eq_false_iff_not]
    omega
  have hw : ∀ cmd, housedcc_pidcc_write wk ps cmd =
      (0, { ps with capture := ps.capture ++ [(("BUILT"), cmd)] }) := by
    intro cmd
    simp only [housedcc_pidcc_write, hen, Bool.false_eq_true, if_false]
  refine ⟨hw, fun address speed => ?_, fun address emergency => ?_,
          fun address instruction => ?_, fun address device value => ?_⟩
  · by_cases hg : address ≤ 0 ∨ 128 ≤ address
    · simp only [housedcc_pidcc_move, if_pos hg]
    · by_cases hq : ps.piState = ('*')
      · simp only [housedcc_pidcc_move, if_neg hg, if_pos hq]
      · by_cases hs : 28 < speed.natAbs
        · simp only [housedcc_pidcc_move, if_neg hg, if_neg hq, if_pos hs]
        · simp only [housedcc_pidcc_move, if_neg hg, if_neg hq, if_neg hs, hw]
  · by_cases hg : address < 0 ∨ 128 ≤ address
    · simp only [housedcc_pidcc_stop, if_pos hg]
    · simp only [housedcc_pidcc_stop, if_neg hg, hw]
  · by_cases hg : 128 ≤ address
    · simp only [housedcc_pidcc_function, if_pos hg]
    · by_cases hq : ps.piState = ('*')
      · simp only [housedcc_pidcc_function, if_neg hg, if_pos hq]
      · simp only [housedcc_pidcc_function, if_neg hg, if_neg hq, hw]
  · by_cases hg : 512 ≤ address
    · simp only [housedcc_pidcc_accessory, if_pos hg]
    · by_cases hq : ps.piState = ('*')
      · simp only [housedcc_pidcc_accessory, if_neg hg, if_pos hq]
      · simp only [housedcc_pidcc_accessory, if_neg hg, if_neg hq, hw]

/-- Witness for C10: with no pin configured, a valid stop and a valid
move both return 0 and the stop's command line is recorded as built. -/
theorem housedcc_pidcc_dry_run_witness :
    housedcc_pidcc_write true psDry (0, 65) =
      (0, { psDry with capture := psDry.capture ++ [(("BUILT"), 0, 65)] }) ∧
    (housedcc_pidcc_move true psDry 3 7).1 = 0 ∧
    (housedcc_pidcc_stop true psDry 0 1).1 = 0 :=
  ⟨(housedcc_pidcc_dry_run true psDry (by decide) (by decide)).1 (0, 65),
   (housedcc_pidcc_dry_run true psDry (by decide) (by decide)).2.1 3 7,
   (housedcc_pidcc_dry_run true psDry (by decide) (by decide)).2.2.1 0 1⟩

/-- Counterexample to C6: after a busy line at time 100 (deadline 103),
the periodic tick at time 200 — far past the deadline — leaves the state
Busy instead of reverting it to Idle; and from QueueFull the tick at
time 103, where now equals the deadline, does not revert either, though
the claim requires reversion as soon as now ≥ readinessDeadline. -/
theorem housedcc_pidcc_periodic_no_busy_recovery :
    (housedcc_pidcc_decode 100 psIdle ("% busy")).piState = ('%') ∧
    (housedcc_pidcc_decode 100 psIdle ("% busy")).deadline = 103 ∧
    (housedcc_pidcc_periodic 200
      (housedcc_pidcc_decode 100 psIdle ("% busy"))).piState = ('%') ∧
    (housedcc_pidcc_decode 100 psIdle ("* full")).deadline = 103 ∧
    (housedcc_pidcc_periodic 103
      (housedcc_pidcc_decode 100 psIdle ("* full"))).piState = ('*') := by
  decide

/-- C6 as amended: a received busy or queue-full line arms the deadline
at now + 3, and the periodic tick reverts the readiness to Idle only
from the QueueFull state, and only once now is strictly past the
deadline; a Busy state is never reverted by the tick. -/
theorem housedcc_pidcc_readiness_recovery (ps : PState) (now : Int)
    (line : String) (h1 : ps.piState = ('*')) (h2 : ps.deadline < now)
    (h3 : line.data.head? = some ('%') ∨ line.data.head? = some ('*')) :
    (housedcc_pidcc_periodic now ps).piState = ('#') ∧
    (housedcc_pidcc_decode now ps line).deadline = now + 3 := by
  constructor
  · simp only [housedcc_pidcc_periodic, if_pos h1, if_pos h2]
  · rcases h3 with h3 | h3
    · simp only [housedcc_pidcc_decode, h3]
      rw [if_neg (by decide : ¬ ('%') = ('#'))]
      simp
    · simp only [housedcc_pidcc_decode, h3]
      rw [if_neg (by decide : ¬ ('*') = ('#')),
          if_neg (by decide : ¬ ('*') = ('%'))]
      simp

/-- Witness for C6 as amended: a stale full-queue state at tick 104. -/
theorem housedcc_pidcc_readiness_recovery_witness :
    (housedcc_pidcc_periodic 104 psFull).piState = ('#') ∧
    (housedcc_pidcc_decode 104 psFull ("% busy")).deadline = 104 + 3 :=
  housedcc_pidcc_readiness_recovery psFull 104 ("% busy") (by decide)
    (by decide) (Or.inl (by decide))

/-- C7 at the failing input: for accessory address 256 (high bits field
0x40) with device 0 switched on, the code emits the second field
0x80 + 0x40 + 0x08 = 200, leaving the high address bits uninverted
because the source computes `0 ^ ((address & 0x1c0) >> 2)` — an XOR
with 0 — where the DCC convention requires their ones complement
(XOR with 0x70), which would give 0x80 + 0x30 + 0x08 = 184.  The first
field and the address-range rejection behave as claimed. -/
theorem housedcc_pidcc_accessory_uninverted :
    (housedcc_pidcc_accessory true psIdle 256 0 1).2.channel =
      [(0x80 + Int.land 256 0x3f, 200)] ∧
    (200 : Int) ≠
      0x80 + Int.xor 0x70 (Int.shiftRight (Int.land 256 0x1c0) 2)
        + 0x08 + Int.land 0 0x0f ∧
    (housedcc_pidcc_accessory true psIdle 512 0 1).1 = 0 := by
  decide

/-- C5 at the failing input: vehicle "V" has a model whose function
"aux" carries the unassigned index -1 (the declare default), yet
switching it on does not fail: the code reaches the F1-F4/FL branch
(whose test `index <= 4` admits every non-positive index), transmits
"send 3 128" and returns success 1.  On the way it evaluates the C
shift `1 << (index - 1)` with a negative count, which is undefined
behavior; the emitted command and the success return hold for any value
that shift may produce. -/
theorem housedcc_fleet_set_unassigned_sent :
    (fsM.models.getD 0 ⟨("" ), 0, []⟩).functions = [⟨("aux"), -1⟩] ∧
    (housedcc_fleet_set true fsM psIdle ("V") ("aux") 1).1 = 1 ∧
    (housedcc_fleet_set true fsM psIdle ("V") ("aux") 1).2.2.channel =
      [(3, 128)] := by
  decide

/-- Helper equation: the update case of housedcc_fleet_add — the id was
found at index c and the call is not rejected. -/
theorem housedcc_fleet_add_update_eq (fs : FleetState) (id : String)
    (model : Option String) (a : Int) (c : Nat)
    (hva : housedcc_fleet_valid_address a)
    (hnc : ¬ ((housedcc_fleet_find_address fs a).isSome ∧
              housedcc_fleet_find fs id ≠ housedcc_fleet_find_address fs a))
    (hc : housedcc_fleet_find fs id = some c) :
    housedcc_fleet_add fs id model a =
      ⟨fs.models,
       fs.vehicles.set c
         ({ fs.vehicles.getD c default with
             address := a, speed := 0, functions := 0,
             model := model.bind (housedcc_fleet_find_model fs) })⟩ := by
  have hnc' : ¬ ((housedcc_fleet_find_address fs a).isSome ∧
      some c ≠ housedcc_fleet_find_address fs a) := by
    rw [← hc]; exact hnc
  simp only [housedcc_fleet_add, if_neg (not_not_intro hva), hc,
             if_neg hnc, if_neg hnc']

/-- Helper equation: the creation case of housedcc_fleet_add reusing a
tombstoned slot. -/
theorem housedcc_fleet_add_slot_eq (fs : FleetState) (id : String)
    (model : Option String) (a : Int) (slot : Nat)
    (hva : housedcc_fleet_valid_address a)
    (hnc : ¬ ((housedcc_fleet_find_address fs a).isSome ∧
              housedcc_fleet_find fs id ≠ housedcc_fleet_find_address fs a))
    (hc : housedcc_fleet_find fs id = none)
    (hs : findFirst (fun v => v.id = ("")) fs.vehicles = some slot) :
    housedcc_fleet_add fs id model a =
      ⟨fs.models,
       fs.vehicles.set slot
         ⟨truncate14 id, a, 0, 0,
          model.bind (housedcc_fleet_find_model fs)⟩⟩ := by
  have hnc' : ¬ ((housedcc_fleet_find_address fs a).isSome ∧
      none ≠ housedcc_fleet_find_address fs a) := by
    rw [← hc]; exact hnc
  simp only [housedcc_fleet_add, if_neg (not_not_intro hva), hc,
             if_neg hnc, if_neg hnc', hs]

/-- Helper equation: the creation case of housedcc_fleet_add growing the
table. -/
theorem housedcc_fleet_add_append_eq (fs : FleetState) (id : String)
    (model : Option String) (a : Int)
    (hva : housedcc_fleet_valid_address a)
    (hnc : ¬ ((housedcc_fleet_find_address fs a).isSome ∧
              housedcc_fleet_find fs id ≠ housedcc_fleet_find_address fs a))
    (hc : housedcc_fleet_find fs id = none)
    (hs : findFirst (fun v => v.id = ("")) fs.vehicles = none) :
    housedcc_fleet_add fs id model a =
      ⟨fs.models,
       fs.vehicles ++
         [⟨truncate14 id, a, 0, 0,
           model.bind (housedcc_fleet_find_model fs)⟩]⟩ := by
  have hnc' : ¬ ((housedcc_fleet_find_address fs a).isSome ∧
      none ≠ housedcc_fleet_find_address fs a) := by
    rw [← hc]; exact hnc
  simp only [housedcc_fleet_add, if_neg (not_not_intro hva), hc,
             if_neg hnc, if_neg hnc', hs]

/-- Helper: whenever housedcc_fleet_add is not rejected (valid address,
no conflicting first holder of the address), the resulting table holds
an entry with the requested address, speed 0 and an empty function
bitmask, carrying the given id (exactly for an update, truncated to 14
characters for a creation). -/
theorem housedcc_fleet_add_success (fs : FleetState) (id : String)
    (model : Option String) (a : Int)
    (hva : housedcc_fleet_valid_address a)
    (hnc : ¬ ((housedcc_fleet_find_address fs a).isSome ∧
              housedcc_fleet_find fs id ≠ housedcc_fleet_find_address fs a)) :
    ∃ j v, (housedcc_fleet_add fs id model a).vehicles.get? j = some v ∧
      v.address = a ∧ v.speed = 0 ∧ v.functions = 0 ∧
      (v.id = id ∨ v.id = truncate14 id) := by
  cases hc : housedcc_fleet_find fs id with
  | some c =>
      rw [housedcc_fleet_add_update_eq fs id model a c hva hnc hc]
      have hc' : findFirst (fun (v : DccVehicle) => v.id = id) fs.vehicles
          = some c := hc
      have hlt : c < fs.vehicles.length := findFirst_lt_length hc'
      have hid : (fs.vehicles.getD c default).id = id :=
        of_decide_eq_true
          (findFirst_getD (fun (v : DccVehicle) => v.id = id) default hc')
      refine ⟨c, { fs.vehicles.getD c default with
                   address := a, speed := 0, functions := 0,
                   model := model.bind (housedcc_fleet_find_model fs) },
              ?_, ?_, ?_, ?_, ?_⟩
      · exact List.get?_set_eq_of_lt _ hlt
      · rfl
      · rfl
      · rfl
      · exact Or.inl hid
  | none =>
      cases hs : findFirst (fun v => v.id = ("")) fs.vehicles with
      | some slot =>
          rw [housedcc_fleet_add_slot_eq fs id model a slot hva hnc hc hs]
          have hlt : slot < fs.vehicles.length := findFirst_lt_length hs
          refine ⟨slot, ⟨truncate14 id, a, 0, 0,
                  model.bind (housedcc_fleet_find_model fs)⟩,
                  ?_, ?_, ?_, ?_, ?_⟩
          · exact List.get?_set_eq_of_lt _ hlt
          · rfl
          · rfl
          · rfl
          · exact Or.inr rfl
      | none =>
          rw [housedcc_fleet_add_append_eq fs id model a hva hnc hc hs]
          refine ⟨fs.vehicles.length, ⟨truncate14 id, a, 0, 0,
                  model.bind (housedcc_fleet_find_model fs)⟩,
                  ?_, ?_, ?_, ?_, ?_⟩
          · exact List.get?_concat_length _ _
          · rfl
          · rfl
          · rfl
          · exact Or.inr rfl

/-- Counterexample to C4: starting from an empty fleet, vehicle "X" is
added at address 5 and then deleted, leaving only a tombstoned entry
(empty id) that still carries address 5; no live vehicle holds address
5, yet adding "Y" at address 5 is rejected as a no-op and "Y" does not
exist afterwards. -/
theorem housedcc_fleet_add_tombstone_blocks :
    (∀ v ∈ fsTomb.vehicles, ¬ (v.id ≠ ("") ∧ v.address = 5)) ∧
    housedcc_fleet_add fsTomb ("Y") none 5 = fsTomb ∧
    housedcc_fleet_find (housedcc_fleet_add fsTomb ("Y") none 5) ("Y")
      = none := by
  decide

/-- C4 as amended: for a valid address a, housedcc_fleet_add is a no-op
when any entry of the vehicle table — live or tombstoned — other than
the entry matched by id is the first holder of address a; otherwise an
entry with the given id (truncated to 14 characters on creation) and
address a exists afterwards. -/
theorem housedcc_fleet_add_address_unique (fs : FleetState) (id : String)
    (model : Option String) (a : Int)
    (hva : housedcc_fleet_valid_address a) :
    (((housedcc_fleet_find_address fs a).isSome ∧
        housedcc_fleet_find fs id ≠ housedcc_fleet_find_address fs a) →
      housedcc_fleet_add fs id model a = fs)
    ∧ (¬ ((housedcc_fleet_find_address fs a).isSome ∧
          housedcc_fleet_find fs id ≠ housedcc_fleet_find_address fs a) →
      ∃ j v, (housedcc_fleet_add fs id model a).vehicles.get? j = some v ∧
        v.address = a ∧ (v.id = id ∨ v.id = truncate14 id)) := by
  constructor
  · intro h
    simp only [housedcc_fleet_add, if_neg (not_not_intro hva), if_pos h]
  · intro h
    obtain ⟨j, v, h1, h2, _, _, h5⟩ :=
      housedcc_fleet_add_success fs id model a hva h
    exact ⟨j, v, h1, h2, h5⟩

/-- Witness for C4 as amended: adding "X" at address 5 to the empty
fleet succeeds. -/
theorem housedcc_fleet_add_address_unique_witness :
    ∃ j v, (housedcc_fleet_add fs0 ("X") none 5).vehicles.get? j
        = some v ∧
      v.address = 5 ∧ (v.id = ("X") ∨ v.id = truncate14 ("X")) :=
  (housedcc_fleet_add_address_unique fs0 ("X") none 5 (by decide)).2
    (by decide)

/-- Counterexample to C8: vehicle "V" currently has speed 5 and
function bitmask 3; re-adding the same id (a valid, non-conflicting
call, since "V" itself holds address 3) resets its speed and function
state to 0, although the claim says an update does not reset them. -/
theorem housedcc_fleet_add_update_resets_cex :
    fsV.vehicles.getD 0 default = ⟨("V"), 3, 5, 3, none⟩ ∧
    housedcc_fleet_find fsV ("V") = some 0 ∧
    (housedcc_fleet_add fsV ("V") none 3).vehicles.getD 0 default =
      ⟨("V"), 3, 0, 0, none⟩ := by
  decide

/-- C8 as amended: every successful housedcc_fleet_add leaves the
created or updated entry with speed 0 and an empty function bitmask —
the reset happens on creation and on update of an existing id alike
(only the stored id survives an update unchanged). -/
theorem housedcc_fleet_add_reset_semantics (fs : FleetState) (id : String)
    (model : Option String) (a : Int)
    (hva : housedcc_fleet_valid_address a)
    (hnc : ¬ ((housedcc_fleet_find_address fs a).isSome ∧
              housedcc_fleet_find fs id ≠ housedcc_fleet_find_address fs a)) :
    (∃ j v, (housedcc_fleet_add fs id model a).vehicles.get? j = some v ∧
        v.address = a ∧ v.speed = 0 ∧ v.functions = 0)
    ∧ (∀ c, housedcc_fleet_find fs id = some c →
        (housedcc_fleet_add fs id model a).vehicles.getD c default =
          ⟨(fs.vehicles.getD c default).id, a, 0, 0,
           model.bind (housedcc_fleet_find_model fs)⟩) := by
  constructor
  · obtain ⟨j, v, h1, h2, h3, h4, _⟩ :=
      housedcc_fleet_add_success fs id model a hva hnc
    exact ⟨j, v, h1, h2, h3, h4⟩
  · intro c hc
    rw [housedcc_fleet_add_update_eq fs id model a c hva hnc hc]
    have hc' : findFirst (fun (v : DccVehicle) => v.id = id) fs.vehicles
        = some c := hc
    have hlt : c < fs.vehicles.length := findFirst_lt_length hc'
    exact getD_set_self _ _ hlt

/-- Witness for C8 as amended: re-adding "V" resets its entry. -/
theorem housedcc_fleet_add_reset_semantics_witness :
    (∃ j v, (housedcc_fleet_add fsV ("V") none 3).vehicles.get? j
        = some v ∧ v.address = 3 ∧ v.speed = 0 ∧ v.functions = 0) ∧
    (housedcc_fleet_add fsV ("V") none 3).vehicles.getD 0 default =
      ⟨(fsV.vehicles.getD 0 default).id, 3, 0, 0, none⟩ :=
  ⟨(housedcc_fleet_add_reset_semantics fsV ("V") none 3 (by decide)
      (by decide)).1,
   (housedcc_fleet_add_reset_semantics fsV ("V") none 3 (by decide)
      (by decide)).2 0 (by decide)⟩

/-- Counterexample to C9: with the worker reporting a full queue, a
fleet-level move on "V" (stored speed 5) fails at the transport (result
0, transport state untouched, nothing sent) yet stores speed 7; and a
fleet-level function-set of "f1" on a vehicle whose bitmask is empty
likewise fails at the transport yet stores the updated bitmask 1 — the
failed commands are not no-ops on the registry. -/
theorem housedcc_fleet_command_not_atomic :
    (housedcc_fleet_move true fsV psFull ("V") 7).1 = 0 ∧
    ((housedcc_fleet_move true fsV psFull ("V") 7).2.1.vehicles.getD 0
       default).speed = 7 ∧
    (fsV.vehicles.getD 0 default).speed = 5 ∧
    (housedcc_fleet_move true fsV psFull ("V") 7).2.2 = psFull ∧
    (housedcc_fleet_set true fsF psFull ("V") ("f1") 1).1 = 0 ∧
    ((housedcc_fleet_set true fsF psFull ("V") ("f1") 1).2.1.vehicles.getD 0
       default).functions = 1 ∧
    (fsF.vehicles.getD 0 default).functions = 0 ∧
    (housedcc_fleet_set true fsF psFull ("V") ("f1") 1).2.2 = psFull := by
  decide

/-- C9 as amended: for an existing vehicle, housedcc_fleet_move reports
exactly the transport's result but always stores the clamped speed; for
a function-set whose model and function-name lookups succeed,
housedcc_fleet_set always stores the updated bitmask (set or cleared
through the index's single-bit mask), and for every index the code
transmits (at most 12, or exactly 13) it reports exactly the
transport's result for the instruction byte it built; nothing is rolled
back on transport failure.  housedcc_fleet_stop always hands the
transport the stop command and reports its result. -/
theorem housedcc_fleet_no_rollback (wk : Bool) (fs : FleetState)
    (ps : PState) (id : String) (speed emergency : Int) (c : Nat)
    (h : housedcc_fleet_find fs id = some c) :
    (housedcc_fleet_move wk fs ps id speed).1 =
      (housedcc_pidcc_move wk ps (fs.vehicles.getD c default).address
        (housedcc_fleet_clamp speed)).1
    ∧ ((housedcc_fleet_move wk fs ps id speed).2.1.vehicles.getD c
        default).speed = housedcc_fleet_clamp speed
    ∧ (housedcc_fleet_stop wk fs ps id emergency).1 =
      (housedcc_pidcc_stop wk ps (fs.vehicles.getD c default).address
        emergency).1
    ∧ (∀ name state m i,
        (fs.vehicles.getD c default).model.bind
          (fun x => fs.models.get? x) = some m →
        findFirst (fun f => f.name = name) m.functions = some i →
        (((housedcc_fleet_set wk fs ps id name state).2.1.vehicles.getD c
            default).functions =
          (if state ≠ 0 then
            toShort (Int.lor (fs.vehicles.getD c default).functions
              (maskOf (m.functions.getD i default).index))
          else
            toShort (Int.land (fs.vehicles.getD c default).functions
              (Int.not (maskOf (m.functions.getD i default).index)))))
        ∧ ((m.functions.getD i default).index ≤ 12 ∨
            (m.functions.getD i default).index = 13 →
          ∃ instr, (housedcc_fleet_set wk fs ps id name state).1 =
            (housedcc_pidcc_function wk ps
              (fs.vehicles.getD c default).address instr).1)) := by
  have hc' : findFirst (fun (v : DccVehicle) => v.id = id) fs.vehicles
      = some c := h
  have hlt : c < fs.vehicles.length := findFirst_lt_length hc'
  refine ⟨?_, ?_, ?_, ?_⟩
  · simp only [housedcc_fleet_move, h]
  · simp only [housedcc_fleet_move, h]
    have := getD_set_self
      ({ fs.vehicles.getD c default with
          speed := housedcc_fleet_clamp speed }) (default : DccVehicle) hlt
    rw [this]
  · simp only [housedcc_fleet_stop, h]
  · intro name state m i hm hf
    simp only [housedcc_fleet_set, h, hm, hf]
    by_cases h1 : (m.functions.getD i default).index ≤ 4 ∨
        (m.functions.getD i default).index = 13
    · simp only [if_pos h1]
      refine ⟨?_, fun _ => ⟨_, rfl⟩⟩
      rw [getD_set_self _ _ hlt]
    · by_cases h2 : (m.functions.getD i default).index ≤ 8
      · simp only [if_neg h1, if_pos h2]
        refine ⟨?_, fun _ => ⟨_, rfl⟩⟩
        rw [getD_set_self _ _ hlt]
      · by_cases h3 : (m.functions.getD i default).index ≤ 12
        · simp only [if_neg h1, if_neg h2, if_pos h3]
          refine ⟨?_, fun _ => ⟨_, rfl⟩⟩
          rw [getD_set_self _ _ hlt]
        · simp only [if_neg h1, if_neg h2, if_neg h3]
          refine ⟨?_, fun hg => ?_⟩
          · rw [getD_set_self _ _ hlt]
          · exfalso
            rcases hg with hg | hg
            · push_neg at h1
              omega
            · push_neg at h1
              omega

/-- Witness for C9 as amended, on vehicle "V" of fsF (model "M2",
function "f1" at index 1) with a full worker queue: the stored bitmask
becomes 1 and both move and set report the transport's result. -/
theorem housedcc_fleet_no_rollback_witness :
    (housedcc_fleet_move true fsF psFull ("V") 7).1 =
      (housedcc_pidcc_move true psFull
        (fsF.vehicles.getD 0 default).address (housedcc_fleet_clamp 7)).1 ∧
    ((housedcc_fleet_move true fsF psFull ("V") 7).2.1.vehicles.getD 0
       default).speed = housedcc_fleet_clamp 7 ∧
    (housedcc_fleet_stop true fsF psFull ("V") 1).1 =
      (housedcc_pidcc_stop true psFull
        (fsF.vehicles.getD 0 default).address 1).1 ∧
    ((housedcc_fleet_set true fsF psFull ("V") ("f1") 1).2.1.vehicles.getD 0
       default).functions = 1 ∧
    ∃ instr, (housedcc_fleet_set true fsF psFull ("V") ("f1") 1).1 =
      (housedcc_pidcc_function true psFull
        (fsF.vehicles.getD 0 default).address instr).1 :=
  ⟨(housedcc_fleet_no_rollback true fsF psFull ("V") 7 1 0 (by decide)).1,
   (housedcc_fleet_no_rollback true fsF psFull ("V") 7 1 0 (by decide)).2.1,
   (housedcc_fleet_no_rollback true fsF psFull ("V") 7 1 0 (by decide)).2.2.1,
   ((housedcc_fleet_no_rollback true fsF psFull ("V") 7 1 0
      (by decide)).2.2.2 ("f1") 1 ⟨("M2"), 2, [⟨("f1"), 1⟩]⟩ 0
      (by decide) (by decide)).1,
   ((housedcc_fleet_no_rollback true fsF psFull ("V") 7 1 0
      (by decide)).2.2.2 ("f1") 1 ⟨("M2"), 2, [⟨("f1"), 1⟩]⟩ 0
      (by decide) (by decide)).2 (by decide)⟩

end HouseDcc
